import Mathlib

/-!
Verification of the JobSee repository (src/main.py, src/testing.py).

The Python sources are shallowly embedded: pure fragments become Lean
functions, dictionary state becomes explicit association lists, exceptions
become `Except`, and the filesystem / external processes become explicit
parameters.  External collaborators (the Gemini model call, nltk
tokenization, sklearn vectorization, pdflatex) enter as inputs or abstract
parameters; everything the repository itself computes is translated from
the source.
-/

namespace JobSee

/-! ### JSON values, as produced by `json.loads` in `extract_data_with_gemini` -/

/-- A parsed JSON value.  Numbers are modelled as integers (no claim depends
on float payloads).  `obj` entries are in document order, as `json.loads`
returns them (duplicate keys already collapsed by the parser). -/
inductive Json where
  | null
  | bool (b : Bool)
  | num (n : Int)
  | str (s : String)
  | arr (elems : List Json)
  | obj (entries : List (String × Json))

/-- A hashable Python dict key.  In `extract_data_with_gemini` the dict
`final_data` starts with string keys and `dict.update` can only add hashable
keys (lists and dicts raise `TypeError`). -/
inductive PyKey where
  | null
  | bool (b : Bool)
  | num (n : Int)
  | str (s : String)
deriving DecidableEq

/-- A Python dict with insertion order, as `List (key, value)`. -/
abbrev PyDict := List (PyKey × Json)

/-- Hashability check used by `dict.update` on key/value pairs:
lists and dicts are unhashable (`TypeError`), everything else hashes. -/
def hashKey : Json → Option PyKey
  | .null => some .null
  | .bool b => some (.bool b)
  | .num n => some (.num n)
  | .str s => some (.str s)
  | .arr _ => none
  | .obj _ => none

/-- `d[k] = v` Python-style: overwrite in place if the key is present,
otherwise append at the end (dicts preserve insertion order). -/
def dictSet (d : PyDict) (k : PyKey) (v : Json) : PyDict :=
  match d with
  | [] => [(k, v)]
  | (k', v') :: rest => if k' = k then (k, v) :: rest else (k', v') :: dictSet rest k v

/-- `d.get(k)` Python-style (first, hence unique, binding). -/
def dictGet (d : PyDict) (k : PyKey) : Option Json :=
  match d with
  | [] => none
  | (k', v') :: rest => if k' = k then some v' else dictGet rest k

/-! ### `extract_data_with_gemini` (src/main.py, lines 91-109)

The Gemini call, the fenced-block regex and `json.loads` are external
steps producing either an exception (`Except.error`) or a parsed JSON
value (`Except.ok`): malformed JSON and a raising model call both land in
the `error` case, exactly as both raise into the single `except` clause of
the source.  What the repository itself does with the parsed value —
`final_data = default_data.copy(); final_data.update(extracted_data)` and
the two `isinstance` repairs — is embedded below. -/

/-- One element of `dict.update`'s iterable argument, as Python consumes it:
a sequence of length two whose first component is hashable.  JSON arrays of
length two are `[key, value]`; a string of length two yields its two
characters as one-character string key/value; a dict of exactly two entries
is iterated by its keys, yielding (first key, second key).  Everything else
raises (`TypeError`/`ValueError`), which the source catches. -/
def pairInsert (d : PyDict) (x : Json) : Except Unit PyDict :=
  match x with
  | .arr [k, v] =>
    match hashKey k with
    | some pk => .ok (dictSet d pk v)
    | none => .error ()
  | .str s =>
    match s.data with
    | [a, b] => .ok (dictSet d (.str (String.mk [a])) (.str (String.mk [b])))
    | _ => .error ()
  | .obj [(k1, _), (k2, _)] => .ok (dictSet d (.str k1) (.str k2))
  | _ => .error ()

/-- `d.update(xs)` for a list argument: consume the elements left to right;
the first ill-shaped element raises.  (The partially mutated copy is
discarded by the caller's `except` clause, so all-or-nothing is faithful.) -/
def updatePairs (d : PyDict) : List Json → Except Unit PyDict
  | [] => .ok d
  | x :: xs =>
    match pairInsert d x with
    | .error e => .error e
    | .ok d' => updatePairs d' xs

/-- `final_data.update(extracted_data)` for an arbitrary parsed JSON value:
objects merge key by key; arrays are consumed as pair sequences; the empty
string iterates to nothing; any other value raises into the caller's
`except` clause. -/
def pyUpdate (base : PyDict) (j : Json) : Except Unit PyDict :=
  match j with
  | .obj kvs => .ok (kvs.foldl (fun d kv => dictSet d (.str kv.1) kv.2) base)
  | .arr xs => updatePairs base xs
  | .str s => if s = "" then .ok base else .error ()
  | _ => .error ()

/-- The literal `default_data` dict of `extract_data_with_gemini`. -/
def default_data : PyDict :=
  [ (.str "job_title", .str "Unknown Role (Gemini)"),
    (.str "company_name", .str "Unknown Company (Gemini)"),
    (.str "job_description", .str "Could not extract Job Description via Gemini."),
    (.str "required_skills", .arr []),
    (.str "emails", .arr []) ]

/-- `isinstance(·, list)` on the result of `final_data.get(key)`
(a missing key gives `None`, which is not a list). -/
def isArrOpt : Option Json → Bool
  | some (.arr _) => true
  | _ => false

/-- `extract_data_with_gemini`, from the point where the model response has
been parsed (or failed to parse / to arrive, the `error` case). -/
def extract_data_with_gemini (o : Except Unit Json) : PyDict :=
  match o with
  | .error _ => default_data
  | .ok j =>
    match pyUpdate default_data j with
    | .error _ => default_data
    | .ok d0 =>
      let d1 := if isArrOpt (dictGet d0 (.str "required_skills")) then d0
                else dictSet d0 (.str "required_skills") (.arr [])
      let d2 := if isArrOpt (dictGet d1 (.str "emails")) then d1
                else dictSet d1 (.str "emails") (.arr [])
      d2

/-- Is the parsed value a JSON object?  (The prompt asks Gemini for one.) -/
def isObj : Json → Bool
  | .obj _ => true
  | _ => false

/-- Does a JSON value have the shape `dict.update` accepts as one key/value
element?  Mirrors the success cases of `pairInsert`. -/
def pairShaped : Json → Bool
  | .arr [k, _] => (hashKey k).isSome
  | .str s =>
    match s.data with
    | [_, _] => true
    | _ => false
  | .obj [_, _] => true
  | _ => false

/-- A non-object value that `dict.update` nevertheless consumes entirely:
an array all of whose elements are key/value shaped. -/
def mergeablePairSeq : Json → Bool
  | .arr xs => xs.all pairShaped
  | _ => false

/-! ### Python `str.replace` and `modify_latex_template` (src/main.py, lines 111-149)

Strings are modelled as `List Char` here so that the scan of `str.replace`
can be reasoned about positionally. -/

/-- One left-to-right scan of Python `str.replace`: replace each
non-overlapping occurrence, never rescanning the replacement text
(`"aaa".replace("aa","b") == "ba"`).  The fuel argument makes the
recursion structural; `pyReplace` passes `s.length`, which always
suffices because every step consumes at least one character of `s`
(for non-empty patterns). -/
def replaceAllAux (pat rep : List Char) : Nat → List Char → List Char
  | _, [] => []
  | 0, s => s
  | fuel + 1, c :: rest =>
    if pat.isPrefixOf (c :: rest) then
      rep ++ replaceAllAux pat rep fuel (List.drop (pat.length - 1) rest)
    else
      c :: replaceAllAux pat rep fuel rest

/-- Python `s.replace(pat, rep)`.  (Python's behaviour for the empty
pattern is not modelled; the source only calls `replace` with non-empty
literal patterns, and every lemma below assumes `pat ≠ []`.) -/
def pyReplace (s pat rep : List Char) : List Char :=
  replaceAllAux pat rep s.length s

/-- The `ExtractedListing` record of the spec's data model: the well-typed
content of the `extracted_data` dict as consumed by template filling. -/
structure ExtractedListing where
  title : String
  organization : String
  description : String
  requiredSkills : List String
  contactEmails : List String

/-- `LATEX_SUMMARY_PLACEHOLDER` (src/main.py line 28). -/
def LATEX_SUMMARY_PLACEHOLDER : List Char := "%<SUMMARY_PLACEHOLDER>%".data

/-- `LATEX_SKILLS_PLACEHOLDER` (src/main.py line 29). -/
def LATEX_SKILLS_PLACEHOLDER : List Char := "%<SKILLS_LIST_PLACEHOLDER>%".data

/-- Line 127 / line 133: LaTeX escaping of substituted text, the three
sequential `str.replace` calls in source order (`%`, `&`, `_`). -/
def latexEscape (s : List Char) : List Char :=
  pyReplace (pyReplace (pyReplace s ['%'] ['\\', '%']) ['&'] ['\\', '&']) ['_'] ['\\', '_']

/-- Lines 122-126: selection of the summary sentence, before escaping. -/
def summaryRaw (l : ExtractedListing) : String :=
  if l.description = "" ∨ l.description.length < 30 ∨
      l.description.startsWith "Could not extract" then
    "Highly motivated professional seeking the " ++ l.title ++ " position at " ++
      l.organization ++ "."
  else
    "Summary based on job description: " ++ l.description ++
      " My background aligns with the requirements of the " ++ l.title ++ " position."

/-- The string actually substituted for the summary placeholder
(line 127: the escaped summary sentence). -/
def summaryText (l : ExtractedListing) : List Char :=
  latexEscape (summaryRaw l).data

/-- Lines 131-135: the skills block substituted for the skills placeholder:
one `\item` per skill (each escaped), joined by newlines, or the fixed
placeholder item when the list is empty. -/
def skillsText (l : ExtractedListing) : List Char :=
  match l.requiredSkills with
  | [] => "    \\item No specific skills extracted.".data
  | sks => List.intercalate ['\n'] (sks.map (fun sk => "    \\item ".data ++ latexEscape sk.data))

/-- Lines 119-136: the content transformation of `modify_latex_template` —
the two `str.replace` calls on the template text. -/
def fillContent (tmpl : List Char) (l : ExtractedListing) : List Char :=
  pyReplace (pyReplace tmpl LATEX_SUMMARY_PLACEHOLDER (summaryText l))
    LATEX_SKILLS_PLACEHOLDER (skillsText l)

/-- A filesystem as an association list path ↦ content (first binding wins). -/
def fsRead (fs : List (String × List Char)) (p : String) : Option (List Char) :=
  match fs with
  | [] => none
  | (q, c) :: rest => if q = p then some c else fsRead rest p

/-- `modify_latex_template` (src/main.py lines 111-149) over an explicit
filesystem: reading a missing template raises `FileNotFoundError` into the
`except` clause, which logs and returns `False` before anything is written;
otherwise the filled content is written to `output_path` and `True` is
returned.  The embedding is total: no exception propagates to the caller. -/
def modify_latex_template (fs : List (String × List Char))
    (templatePath outputPath : String) (l : ExtractedListing) :
    Bool × List (String × List Char) :=
  match fsRead fs templatePath with
  | none => (false, fs)
  | some tmpl => (true, (outputPath, fillContent tmpl l) :: fs)

/-! ### `compile_latex_to_pdf` (src/main.py, lines 167-236) -/

/-- The outcome of `subprocess.run` with `check=False`: an exit code and
the captured stdout/stderr. -/
structure ProcResult where
  returncode : Int
  stdout : String
  stderr : String

/-- `compile_latex_to_pdf` over explicit collaborator outcomes: whether the
.tex file exists (line 177), the result of invoking pdflatex —
`Except.error` for any raised exception, e.g. `FileNotFoundError` when the
binary is absent (lines 229-236) — and whether the expected .pdf artifact
exists on disk afterwards (line 218).  Total: every failure path returns
`false`, nothing propagates. -/
def compile_latex_to_pdf (texExists : Bool) (run : Except String ProcResult)
    (pdfExists : Bool) : Bool :=
  if !texExists then false
  else
    match run with
    | .error _ => false
    | .ok r =>
      if r.returncode ≠ 0 then false
      else if pdfExists then true
      else false

/-! ### `extract_skills` and `extract_keywords` (src/testing.py, lines 89-114) -/

/-- The `PREDEFINED_SKILLS` vocabulary (src/testing.py lines 89-95). -/
def PREDEFINED_SKILLS : List String :=
  ["python", "java", "c++", "javascript", "html", "css", "sql", "nosql", "mongodb",
   "react", "angular", "vue", "node.js", "django", "flask", "spring",
   "machine learning", "deep learning", "data science", "data analysis",
   "aws", "azure", "gcp", "docker", "kubernetes", "git", "jira", "agile",
   "communication", "teamwork", "problem solving", "leadership", "project management"]

/-- A regex word character (`\w`): letters, digits, underscore (ASCII, which
covers the vocabulary and every input the claims touch). -/
def wordChar (c : Char) : Bool := c.isAlphanum || c = '_'

/-- Word-character test on an optional character; a string edge (`none`)
counts as non-word, as in regex `\b` semantics. -/
def optWordChar : Option Char → Bool
  | some c => wordChar c
  | none => false

/-- The character at position `i` of a character list, if any. -/
def charAt (s : List Char) (i : Nat) : Option Char := (List.drop i s).head?

/-- The character just before position `i`, if any. -/
def prevChar (s : List Char) (i : Nat) : Option Char :=
  if i = 0 then none else charAt s (i - 1)

/-- Matching of `re.search(r'\b' + re.escape(pat) + r'\b', text)` at
position `i`: the literal pattern occurs at `i` (re.escape makes it
literal) and a word/non-word transition (`\b`) holds at both ends. -/
def regexWordMatchAt (pat text : List Char) (i : Nat) : Bool :=
  pat.isPrefixOf (List.drop i text) &&
    (optWordChar (prevChar text i) != optWordChar pat.head?) &&
    (optWordChar pat.getLast? != optWordChar (charAt text (i + pat.length)))

/-- `re.search` of the word-boundary pattern: a match at some position. -/
def reSearchWord (pat text : List Char) : Bool :=
  (List.range (text.length + 1)).any (fun i => regexWordMatchAt pat text i)

/-- Python `str.lower()`, at the character-list level. -/
def pyLower (s : String) : List Char := s.data.map Char.toLower

/-- Python `str.capitalize()`: first character upper-cased, the rest
lower-cased. -/
def pyCapitalize (s : String) : String :=
  match s.data with
  | [] => ""
  | c :: rest => String.mk (c.toUpper :: rest.map Char.toLower)

/-- `extract_skills` (src/testing.py lines 97-105): for each vocabulary
entry, search the lower-cased text for the word-boundary-delimited literal
pattern of the lower-cased entry; matches are capitalized and collected
into a set — modelled as the deduplicated list in vocabulary order, since
a Python set fixes no order and the claim treats order as insignificant. -/
def extract_skills (text : String) (skillList : List String) : List String :=
  ((skillList.filter
    (fun sk => reSearchWord (pyLower sk) (pyLower text))).map pyCapitalize).dedup

/-- The natural-language reading of the spec's "case-insensitive whole-word
occurrence", written from the spec's words for comparison with the regex
semantics the code uses: the entry occurs (case-insensitively) with no word
character adjacent on either side. -/
def specWholeWordOcc (entry text : String) : Bool :=
  (List.range ((pyLower text).length + 1)).any (fun i =>
    (pyLower entry).isPrefixOf (List.drop i (pyLower text)) &&
      !optWordChar (prevChar (pyLower text) i) &&
      !optWordChar (charAt (pyLower text) (i + (pyLower entry).length)))

/-- Python `str.isalpha()`: non-empty and all alphabetic. -/
def pyIsAlpha (w : String) : Bool := !w.isEmpty && w.data.all Char.isAlpha

/-- `extract_keywords` (src/testing.py lines 107-114).  Tokenization
(`nltk.word_tokenize` of the lower-cased text) is an external collaborator,
passed in as the token list it produced.  The module never binds the name
`stop_words` (only `stopwords` is imported, and it is never aliased), so
the comprehension `[w for w in tokens if w.isalpha() and w not in stop_words]`
raises `NameError` as soon as the second conjunct is evaluated — that is,
on the first alphabetic token.  Empty text returns `[]` before
tokenization; a token list without alphabetic tokens short-circuits past
`stop_words` and yields `most_common` of an empty counter. -/
def extract_keywords (text : String) (tokens : List String) (numKeywords : Nat) :
    Except String (List String) :=
  if text = "" then .ok []
  else if tokens.any pyIsAlpha then .error "NameError: name stop_words is not defined"
  else .ok (List.take numKeywords [])

/-! ### `calculate_similarity` (src/testing.py, lines 131-146)

The vectorization itself is performed by the sklearn collaborator
(`TfidfVectorizer` + `cosine_similarity`); the spec (§4.6) describes it as
a term-frequency–inverse-document-frequency vector space over the
two-document corpus with English stopwords removed, compared by cosine
similarity.  Modelled from the spec: the tokenizer (including stopword
removal) enters as a parameter `tok`, and the idf weighting as a parameter
`w` applied to a term's document frequency; the claims hold for every
choice of both.  Real numbers model the floating-point arithmetic. -/

/-- Modelled from the spec (§4.6): the vocabulary of the two-document
corpus — the set of terms surviving tokenization.  (sklearn fixes an order
for the coordinates; the score does not depend on it, so a `Finset`
suffices.) -/
def simVocab (tok : String → List String) (a b : String) : Finset String :=
  (tok a ++ tok b).toFinset

/-- Term frequency of `t` in a tokenized document. -/
def tfCount (doc : List String) (t : String) : Nat := doc.count t

/-- Document frequency of `t` in the corpus `{a, b}`. -/
def docFreq (tok : String → List String) (a b t : String) : Nat :=
  (if t ∈ tok a then 1 else 0) + (if t ∈ tok b then 1 else 0)

/-- Modelled from the spec (§4.6): the TF-IDF coordinate of document `d`
at term `t` in the corpus `{a, b}` — term frequency times the idf weight
of the term's document frequency. -/
noncomputable def tfidfCoord (tok : String → List String) (w : Nat → ℝ)
    (a b d t : String) : ℝ :=
  (tfCount (tok d) t : ℝ) * w (docFreq tok a b t)

/-- Dot product of the TF-IDF vectors of documents `d1` and `d2` over the
corpus vocabulary. -/
noncomputable def tfidfDot (tok : String → List String) (w : Nat → ℝ)
    (a b d1 d2 : String) : ℝ :=
  Finset.sum (simVocab tok a b)
    (fun t => tfidfCoord tok w a b d1 t * tfidfCoord tok w a b d2 t)

/-- Python `round(x, 2)` as a real-valued function.  (Python rounds half to
even; the claims only use that the result is a function of `x`.) -/
noncomputable def pyRound2 (x : ℝ) : ℝ := (⌊x * 100 + 1 / 2⌋ : ℤ) / 100

/-- `calculate_similarity` (src/testing.py lines 131-146): `0.0` when
either text is empty (line 132); the sklearn `ValueError` for an empty
vocabulary is caught and answered with `0.0` (line 142); otherwise the
cosine similarity of the two TF-IDF vectors, scaled to a percentage and
rounded to two decimals (line 141). -/
noncomputable def calculate_similarity (tok : String → List String) (w : Nat → ℝ)
    (a b : String) : ℝ :=
  if a = "" ∨ b = "" then 0
  else if simVocab tok a b = ∅ then 0
  else pyRound2 (100 * (tfidfDot tok w a b a b /
    (Real.sqrt (tfidfDot tok w a b a a) * Real.sqrt (tfidfDot tok w a b b b))))

/-! ### Lemmas about the dict model -/

theorem dictGet_dictSet_self (d : PyDict) (k : PyKey) (v : Json) :
    dictGet (dictSet d k v) k = some v := by
  induction d with
  | nil => simp [dictSet, dictGet]
  | cons hd tl ih =>
    obtain ⟨k', v'⟩ := hd
    by_cases h : k' = k
    · simp [dictSet, dictGet, h]
    · simp [dictSet, dictGet, h, ih]

theorem dictGet_dictSet_ne (d : PyDict) {k k' : PyKey} (h : k' ≠ k) (v : Json) :
    dictGet (dictSet d k v) k' = dictGet d k' := by
  have hne : ¬k = k' := fun hh => h hh.symm
  induction d with
  | nil => simp [dictSet, dictGet, hne]
  | cons hd tl ih =>
    obtain ⟨k0, v0⟩ := hd
    by_cases h0 : k0 = k
    · subst h0
      simp [dictSet, dictGet, hne]
    · simp [dictSet, dictGet, h0, ih]

theorem isSome_dictGet_dictSet (d : PyDict) (k2 k : PyKey) (v : Json)
    (h : (dictGet d k).isSome = true) :
    (dictGet (dictSet d k2 v) k).isSome = true := by
  by_cases hk : k = k2
  · subst hk
    rw [dictGet_dictSet_self]
    rfl
  · rw [dictGet_dictSet_ne d hk v]
    exact h

theorem isSome_foldl_dictSet (kvs : List (String × Json)) :
    ∀ (d : PyDict) (k : PyKey), (dictGet d k).isSome = true →
      (dictGet (kvs.foldl (fun d kv => dictSet d (.str kv.1) kv.2) d) k).isSome = true := by
  induction kvs with
  | nil => intro d k h; simpa using h
  | cons kv rest ih =>
    intro d k h
    rw [List.foldl_cons]
    exact ih _ k (isSome_dictGet_dictSet _ _ _ _ h)

theorem pairInsert_preserves (x : Json) (d d' : PyDict) (k : PyKey)
    (hok : pairInsert d x = .ok d') (h : (dictGet d k).isSome = true) :
    (dictGet d' k).isSome = true := by
  unfold pairInsert at hok
  split at hok <;> try exact Except.noConfusion hok
  · split at hok <;> try exact Except.noConfusion hok
    injection hok with h1
    subst h1
    exact isSome_dictGet_dictSet _ _ _ _ h
  · split at hok <;> try exact Except.noConfusion hok
    injection hok with h1
    subst h1
    exact isSome_dictGet_dictSet _ _ _ _ h
  · injection hok with h1
    subst h1
    exact isSome_dictGet_dictSet _ _ _ _ h

theorem updatePairs_preserves (xs : List Json) :
    ∀ (d d' : PyDict) (k : PyKey), updatePairs d xs = .ok d' →
      (dictGet d k).isSome = true → (dictGet d' k).isSome = true := by
  induction xs with
  | nil =>
    intro d d' k hok h
    simp only [updatePairs] at hok
    injection hok with h1
    subst h1
    exact h
  | cons x tl ih =>
    intro d d' k hok h
    simp only [updatePairs] at hok
    split at hok
    · exact Except.noConfusion hok
    · next d1 heq => exact ih d1 d' k hok (pairInsert_preserves x d d1 k heq h)

theorem pyUpdate_preserves (j : Json) (base d' : PyDict) (k : PyKey)
    (hok : pyUpdate base j = .ok d') (h : (dictGet base k).isSome = true) :
    (dictGet d' k).isSome = true := by
  cases j with
  | null => exact Except.noConfusion hok
  | bool b => exact Except.noConfusion hok
  | num n => exact Except.noConfusion hok
  | str s =>
    simp only [pyUpdate] at hok
    split at hok
    · injection hok with h1
      subst h1
      exact h
    · exact Except.noConfusion hok
  | arr xs => exact updatePairs_preserves xs base d' k hok h
  | obj kvs =>
    simp only [pyUpdate] at hok
    injection hok with h1
    subst h1
    exact isSome_foldl_dictSet kvs base k h

theorem isArrOpt_eq_true_iff (o : Option Json) :
    isArrOpt o = true ↔ ∃ xs, o = some (.arr xs) := by
  cases o with
  | none => simp [isArrOpt]
  | some j => cases j <;> simp [isArrOpt]

theorem pairShaped_false_insert (x : Json) (d : PyDict) (h : pairShaped x = false) :
    pairInsert d x = .error () := by
  cases x with
  | null => rfl
  | bool b => rfl
  | num n => rfl
  | str s =>
    rcases hd : s.data with _ | ⟨a, _ | ⟨b, _ | ⟨c, tl⟩⟩⟩
    · simp [pairInsert, hd]
    · simp [pairInsert, hd]
    · simp [pairShaped, hd] at h
    · simp [pairInsert, hd]
  | arr xs =>
    rcases xs with _ | ⟨k0, _ | ⟨v0, _ | ⟨w0, tl⟩⟩⟩
    · rfl
    · rfl
    · simp only [pairShaped] at h
      cases hk : hashKey k0 with
      | none => simp [pairInsert, hk]
      | some pk =>
        rw [hk] at h
        simp at h
    · rfl
  | obj kvs =>
    rcases kvs with _ | ⟨e1, _ | ⟨e2, _ | ⟨e3, tl⟩⟩⟩
    · rfl
    · rfl
    · obtain ⟨k1, v1⟩ := e1
      obtain ⟨k2, v2⟩ := e2
      simp [pairShaped] at h
    · rfl

theorem pairShaped_true_insert (x : Json) (d : PyDict) (h : pairShaped x = true) :
    ∃ d', pairInsert d x = .ok d' := by
  cases x with
  | null => simp [pairShaped] at h
  | bool b => simp [pairShaped] at h
  | num n => simp [pairShaped] at h
  | str s =>
    rcases hd : s.data with _ | ⟨a, _ | ⟨b, _ | ⟨c, tl⟩⟩⟩ <;>
      simp [pairShaped, pairInsert, hd] at h ⊢
  | arr xs =>
    rcases xs with _ | ⟨k0, _ | ⟨v0, _ | ⟨w0, tl⟩⟩⟩ <;>
      simp [pairShaped, pairInsert] at h ⊢
    cases hk : hashKey k0 with
    | none => rw [hk] at h; simp at h
    | some pk => simp [hk]
  | obj kvs =>
    rcases kvs with _ | ⟨e1, _ | ⟨e2, _ | ⟨e3, tl⟩⟩⟩
    · simp [pairShaped] at h
    · simp [pairShaped] at h
    · obtain ⟨k1, v1⟩ := e1
      obtain ⟨k2, v2⟩ := e2
      exact ⟨_, rfl⟩
    · simp [pairShaped] at h

theorem updatePairs_error_of_not_all_shaped (xs : List Json) :
    ∀ d : PyDict, xs.all pairShaped = false → updatePairs d xs = .error () := by
  induction xs with
  | nil => intro d h; simp at h
  | cons x tl ih =>
    intro d h
    cases hx : pairShaped x with
    | false => simp [updatePairs, pairShaped_false_insert x d hx]
    | true =>
      have htl : tl.all pairShaped = false := by
        simpa [List.all_cons, hx] using h
      obtain ⟨d', hd'⟩ := pairShaped_true_insert x d hx
      simp [updatePairs, hd', ih d' htl]

/-! ### Theorems for claims C1 and C2 -/

/-- Claim C1 counterexample: the extractor response `[["job_title", "X"]]`
parses to a non-object JSON value, yet `extract_data_with_gemini` does not
return the default record: Python's `dict.update` consumes the array as a
key/value pair sequence and overwrites `job_title` with `"X"`. -/
theorem extract_nonobject_pairlist_merges :
    isObj (Json.arr [Json.arr [Json.str "job_title", Json.str "X"]]) = false ∧
    dictGet (extract_data_with_gemini
        (.ok (Json.arr [Json.arr [Json.str "job_title", Json.str "X"]])))
        (.str "job_title") = some (Json.str "X") ∧
    extract_data_with_gemini
        (.ok (Json.arr [Json.arr [Json.str "job_title", Json.str "X"]])) ≠ default_data := by
  refine ⟨rfl, rfl, ?_⟩
  intro hcontra
  have h1 : dictGet (extract_data_with_gemini
      (.ok (Json.arr [Json.arr [Json.str "job_title", Json.str "X"]])))
      (.str "job_title") = some (Json.str "X") := rfl
  rw [hcontra] at h1
  have h2 : dictGet default_data (.str "job_title")
      = some (Json.str "Unknown Role (Gemini)") := rfl
  rw [h2] at h1
  injection h1 with h3
  injection h3 with h4
  exact absurd h4 (by decide)

/-- Claim C1 (amended): whenever the extractor call raises or the response
is malformed JSON (the `error` outcome), and whenever the parsed value is a
non-object that Python's `dict.update` rejects or consumes without yielding
any entry (numbers, booleans, null, strings, arrays other than non-empty
key/value pair sequences), `extract_data_with_gemini` returns exactly the
default record; it is a total function, so no failure reaches the caller. -/
theorem extract_default_on_parse_failure (o : Except Unit Json)
    (h : o = .error () ∨ ∃ j, o = .ok j ∧ isObj j = false ∧
      (mergeablePairSeq j = true → j = .arr [])) :
    extract_data_with_gemini o = default_data := by
  rcases h with h | ⟨j, rfl, hobj, hmp⟩
  · subst h; rfl
  · cases j with
    | null => rfl
    | bool b => rfl
    | num n => rfl
    | str s =>
      by_cases hs : s = ""
      · subst hs; rfl
      · simp only [extract_data_with_gemini, pyUpdate, if_neg hs]
    | arr xs =>
      by_cases hall : xs.all pairShaped = true
      · have hx : Json.arr xs = Json.arr [] := hmp (by simpa [mergeablePairSeq] using hall)
        injection hx with h1
        subst h1
        rfl
      · have herr : updatePairs default_data xs = .error () :=
          updatePairs_error_of_not_all_shaped xs default_data (by simpa using hall)
        simp only [extract_data_with_gemini, pyUpdate, herr]
    | obj kvs => simp [isObj] at hobj

/-- Witness for C1 at the concrete non-object response `5`. -/
theorem extract_default_on_parse_failure_witness :
    extract_data_with_gemini (.ok (Json.num 5)) = default_data :=
  extract_default_on_parse_failure (.ok (Json.num 5))
    (Or.inr ⟨Json.num 5, rfl, rfl, fun h => nomatch h⟩)

/-- Claim C2 counterexample: on the well-formed object response
`{"job_title": null, "hobby": 3}` the returned record has a null
`job_title` (the parsed null wins over the default) and carries the
extra key `hobby` — so the fields are not all non-null and the record
does not consist of exactly the five fields. -/
theorem extract_null_field_counterexample :
    dictGet (extract_data_with_gemini
        (.ok (.obj [("job_title", .null), ("hobby", .num 3)])))
        (.str "job_title") = some Json.null ∧
    dictGet (extract_data_with_gemini
        (.ok (.obj [("job_title", .null), ("hobby", .num 3)])))
        (.str "hobby") = some (Json.num 3) :=
  ⟨rfl, rfl⟩

/-- Claim C2 (amended): for every extractor outcome the returned record
contains all five expected keys, and `required_skills` and `emails` are
always array-valued; parsed values win whenever their key is present (even
if null or of the wrong type for the three string fields), and extra parsed
keys are carried along. -/
theorem extract_record_shape (o : Except Unit Json) :
    (dictGet (extract_data_with_gemini o) (.str "job_title")).isSome = true ∧
    (dictGet (extract_data_with_gemini o) (.str "company_name")).isSome = true ∧
    (dictGet (extract_data_with_gemini o) (.str "job_description")).isSome = true ∧
    (∃ xs, dictGet (extract_data_with_gemini o) (.str "required_skills") = some (.arr xs)) ∧
    (∃ xs, dictGet (extract_data_with_gemini o) (.str "emails") = some (.arr xs)) := by
  cases o with
  | error e => exact ⟨rfl, rfl, rfl, ⟨[], rfl⟩, ⟨[], rfl⟩⟩
  | ok j =>
    cases hup : pyUpdate default_data j with
    | error e =>
      simp only [extract_data_with_gemini, hup]
      exact ⟨rfl, rfl, rfl, ⟨[], rfl⟩, ⟨[], rfl⟩⟩
    | ok d0 =>
      simp only [extract_data_with_gemini, hup]
      have ht : (dictGet d0 (.str "job_title")).isSome = true :=
        pyUpdate_preserves j default_data d0 _ hup rfl
      have hc : (dictGet d0 (.str "company_name")).isSome = true :=
        pyUpdate_preserves j default_data d0 _ hup rfl
      have hd : (dictGet d0 (.str "job_description")).isSome = true :=
        pyUpdate_preserves j default_data d0 _ hup rfl
      have hne : (PyKey.str "required_skills") ≠ (PyKey.str "emails") := by decide
      by_cases hs : isArrOpt (dictGet d0 (.str "required_skills")) = true
      · rw [if_pos hs]
        by_cases he : isArrOpt (dictGet d0 (.str "emails")) = true
        · rw [if_pos he]
          exact ⟨ht, hc, hd, (isArrOpt_eq_true_iff _).mp hs, (isArrOpt_eq_true_iff _).mp he⟩
        · rw [if_neg he]
          obtain ⟨xs, hxs⟩ := (isArrOpt_eq_true_iff _).mp hs
          refine ⟨isSome_dictGet_dictSet _ _ _ _ ht,
            isSome_dictGet_dictSet _ _ _ _ hc,
            isSome_dictGet_dictSet _ _ _ _ hd,
            ⟨xs, ?_⟩, ⟨[], dictGet_dictSet_self _ _ _⟩⟩
          rw [dictGet_dictSet_ne _ hne _]
          exact hxs
      · rw [if_neg hs]
        have hs1 : dictGet (dictSet d0 (.str "required_skills") (.arr []))
            (.str "required_skills") = some (.arr []) := dictGet_dictSet_self _ _ _
        by_cases he : isArrOpt (dictGet (dictSet d0 (.str "required_skills") (.arr []))
            (.str "emails")) = true
        · rw [if_pos he]
          exact ⟨isSome_dictGet_dictSet _ _ _ _ ht,
            isSome_dictGet_dictSet _ _ _ _ hc,
            isSome_dictGet_dictSet _ _ _ _ hd,
            ⟨[], hs1⟩, (isArrOpt_eq_true_iff _).mp he⟩
        · rw [if_neg he]
          refine ⟨isSome_dictGet_dictSet _ _ _ _ (isSome_dictGet_dictSet _ _ _ _ ht),
            isSome_dictGet_dictSet _ _ _ _ (isSome_dictGet_dictSet _ _ _ _ hc),
            isSome_dictGet_dictSet _ _ _ _ (isSome_dictGet_dictSet _ _ _ _ hd),
            ⟨[], ?_⟩, ⟨[], dictGet_dictSet_self _ _ _⟩⟩
          rw [dictGet_dictSet_ne _ hne _]
          exact hs1

/-! ### Lemmas about `pyReplace` -/

theorem replaceAllAux_nil (pat rep : List Char) (fuel : Nat) :
    replaceAllAux pat rep fuel [] = [] := by
  cases fuel <;> rfl

theorem isPrefixOf_append_self (l r : List Char) : l.isPrefixOf (l ++ r) = true := by
  induction l with
  | nil => simp [List.isPrefixOf]
  | cons a tl ih => simp [List.isPrefixOf, ih]

theorem replaceAllAux_fuel (pat rep : List Char) (s : List Char) (f1 : Nat) :
    ∀ (f2 : Nat), s.length ≤ f1 → s.length ≤ f2 →
      replaceAllAux pat rep f1 s = replaceAllAux pat rep f2 s := by
  induction f1 generalizing s with
  | zero =>
    intro f2 h1 _
    have hs : s = [] := List.eq_nil_of_length_eq_zero (Nat.le_zero.mp h1)
    subst hs
    rw [replaceAllAux_nil, replaceAllAux_nil]
  | succ g1 ihf =>
    intro f2 h1 h2
    cases s with
    | nil => rw [replaceAllAux_nil, replaceAllAux_nil]
    | cons c rest =>
      cases f2 with
      | zero => simp at h2
      | succ g2 =>
        simp only [List.length_cons] at h1 h2
        simp only [replaceAllAux]
        by_cases hp : pat.isPrefixOf (c :: rest) = true
        · rw [if_pos hp, if_pos hp]
          congr 1
          apply ihf <;> rw [List.length_drop] <;> omega
        · rw [if_neg hp, if_neg hp]
          congr 1
          apply ihf <;> omega

theorem pyReplace_no_occurrence (pat rep : List Char) (_hp : pat ≠ []) (s : List Char)
    (hno : ∀ i, i < s.length → pat.isPrefixOf (List.drop i s) = false) :
    pyReplace s pat rep = s := by
  induction s with
  | nil => rfl
  | cons c rest ih =>
    have h0 : pat.isPrefixOf (c :: rest) = false := by
      have := hno 0 (by simp)
      simpa using this
    show replaceAllAux pat rep (c :: rest).length (c :: rest) = c :: rest
    simp only [List.length_cons]
    simp only [replaceAllAux]
    rw [if_neg (by simp [h0])]
    have htail : pyReplace rest pat rep = rest := by
      apply ih
      intro i hi
      have := hno (i + 1) (by simp only [List.length_cons]; omega)
      simpa [List.drop_succ_cons] using this
    exact congrArg (c :: ·) htail

theorem pyReplace_append (pat rep : List Char) (hp : pat ≠ []) (A : List Char) :
    ∀ B : List Char,
      (∀ i, i < A.length → pat.isPrefixOf (List.drop i (A ++ (pat ++ B))) = false) →
      pyReplace (A ++ (pat ++ B)) pat rep = A ++ (rep ++ pyReplace B pat rep) := by
  induction A with
  | nil =>
    intro B _
    simp only [List.nil_append]
    cases pat with
    | nil => exact absurd rfl hp
    | cons p pt =>
      show replaceAllAux (p :: pt) rep ((p :: pt ++ B).length) (p :: pt ++ B) = _
      simp only [List.cons_append, List.length_cons]
      simp only [replaceAllAux]
      have hcond : (p :: pt).isPrefixOf (p :: (pt ++ B)) = true :=
        isPrefixOf_append_self (p :: pt) B
      rw [if_pos hcond]
      congr 1
      have hd : List.drop ((p :: pt).length - 1) (pt ++ B) = B := by
        simp only [List.length_cons, Nat.add_sub_cancel]
        exact List.drop_left pt B
      rw [hd]
      exact replaceAllAux_fuel (p :: pt) rep B _ _ (by simp) le_rfl
  | cons a A' ih =>
    intro B hA
    have h0 : pat.isPrefixOf (a :: (A' ++ (pat ++ B))) = false := by
      have := hA 0 (by simp)
      simpa using this
    show replaceAllAux pat rep ((a :: A' ++ (pat ++ B)).length) (a :: A' ++ (pat ++ B)) = _
    simp only [List.cons_append, List.length_cons]
    simp only [replaceAllAux]
    rw [if_neg (by simp [h0])]
    have htail : pyReplace (A' ++ (pat ++ B)) pat rep = A' ++ (rep ++ pyReplace B pat rep) := by
      apply ih
      intro i hi
      have := hA (i + 1) (by simp only [List.length_cons]; omega)
      simpa [List.drop_succ_cons] using this
    exact congrArg (a :: ·) htail

/-! ### Theorems for claims C3, C5 and C10 -/

/-- Claim C3 (confirmed): the substituted summary is the (escaped) generic
motivational sentence referencing title and organization exactly when the
description is empty, shorter than 30 characters, or starts with
"Could not extract"; otherwise it is the (escaped) sentence quoting the
description followed by the fixed closing clause referencing the title; and
any description of length 29 selects the generic branch. -/
theorem summary_branch_selection (l : ExtractedListing) :
    ((l.description = "" ∨ l.description.length < 30 ∨
        l.description.startsWith "Could not extract") →
      summaryText l = latexEscape ("Highly motivated professional seeking the " ++
        l.title ++ " position at " ++ l.organization ++ ".").data) ∧
    (¬(l.description = "" ∨ l.description.length < 30 ∨
        l.description.startsWith "Could not extract") →
      summaryText l = latexEscape ("Summary based on job description: " ++
        l.description ++ " My background aligns with the requirements of the " ++
        l.title ++ " position.").data) ∧
    (l.description.length = 29 →
      summaryText l = latexEscape ("Highly motivated professional seeking the " ++
        l.title ++ " position at " ++ l.organization ++ ".").data) := by
  refine ⟨?_, ?_, ?_⟩
  · intro h
    simp only [summaryText, summaryRaw, if_pos h]
  · intro h
    simp only [summaryText, summaryRaw, if_neg h]
  · intro h
    have h29 : l.description.length < 30 := by omega
    simp only [summaryText, summaryRaw, if_pos (Or.inr (Or.inl h29))]

/-- Witness for C3 at a concrete listing whose description has length 29. -/
theorem summary_branch_selection_witness :
    summaryText ⟨"T", "C", "aaaaaaaaaaaaaaaaaaaaaaaaaaaaa", [], []⟩ =
      latexEscape ("Highly motivated professional seeking the " ++ "T" ++
        " position at " ++ "C" ++ ".").data :=
  (summary_branch_selection _).2.2 (by decide)

/-- Claim C5 counterexample: on a template consisting of the summary token
twice, document filling substitutes BOTH occurrences (Python `str.replace`
replaces every occurrence), so the token is not replaced exactly once and
the second token does not pass through unchanged. -/
theorem fill_replaces_all_occurrences :
    fillContent (LATEX_SUMMARY_PLACEHOLDER ++ LATEX_SUMMARY_PLACEHOLDER)
        ⟨"T", "C", "", [], []⟩ =
      ("Highly motivated professional seeking the T position at C." ++
        "Highly motivated professional seeking the T position at C.").data ∧
    fillContent (LATEX_SUMMARY_PLACEHOLDER ++ LATEX_SUMMARY_PLACEHOLDER)
        ⟨"T", "C", "", [], []⟩ ≠
      ("Highly motivated professional seeking the T position at C.").data ++
        LATEX_SUMMARY_PLACEHOLDER := by
  constructor
  · decide
  · decide

/-- Claim C5 (amended): document filling replaces EVERY occurrence of the
summary token, then every occurrence of the skills token in the result;
non-token content passes through unchanged.  In particular, when the only
occurrence of each token is the designated one (hypotheses h1-h4), each
token is replaced exactly once and the surrounding content A, B, C is
preserved verbatim. -/
theorem fill_designated_tokens (l : ExtractedListing) (A B C : List Char)
    (h1 : ∀ i, i < A.length → LATEX_SUMMARY_PLACEHOLDER.isPrefixOf
      (List.drop i (A ++ (LATEX_SUMMARY_PLACEHOLDER ++
        (B ++ (LATEX_SKILLS_PLACEHOLDER ++ C))))) = false)
    (h2 : ∀ i, i < (B ++ (LATEX_SKILLS_PLACEHOLDER ++ C)).length →
      LATEX_SUMMARY_PLACEHOLDER.isPrefixOf
        (List.drop i (B ++ (LATEX_SKILLS_PLACEHOLDER ++ C))) = false)
    (h3 : ∀ i, i < (A ++ (summaryText l ++ B)).length →
      LATEX_SKILLS_PLACEHOLDER.isPrefixOf
        (List.drop i ((A ++ (summaryText l ++ B)) ++ (LATEX_SKILLS_PLACEHOLDER ++ C))) = false)
    (h4 : ∀ i, i < C.length →
      LATEX_SKILLS_PLACEHOLDER.isPrefixOf (List.drop i C) = false) :
    fillContent (A ++ (LATEX_SUMMARY_PLACEHOLDER ++ (B ++ (LATEX_SKILLS_PLACEHOLDER ++ C)))) l =
      A ++ (summaryText l ++ (B ++ (skillsText l ++ C))) := by
  have hpS : LATEX_SUMMARY_PLACEHOLDER ≠ ([] : List Char) := by decide
  have hpK : LATEX_SKILLS_PLACEHOLDER ≠ ([] : List Char) := by decide
  unfold fillContent
  rw [pyReplace_append _ _ hpS A _ h1,
    pyReplace_no_occurrence _ _ hpS _ h2]
  rw [show A ++ (summaryText l ++ (B ++ (LATEX_SKILLS_PLACEHOLDER ++ C))) =
    (A ++ (summaryText l ++ B)) ++ (LATEX_SKILLS_PLACEHOLDER ++ C) from by
      simp [List.append_assoc]]
  rw [pyReplace_append _ _ hpK _ _ h3,
    pyReplace_no_occurrence _ _ hpK _ h4]
  simp [List.append_assoc]

/-- Witness for C5 on a concrete single-occurrence template. -/
theorem fill_designated_tokens_witness :
    fillContent ("head ".data ++ (LATEX_SUMMARY_PLACEHOLDER ++
        (" mid ".data ++ (LATEX_SKILLS_PLACEHOLDER ++ " tail".data))))
        ⟨"T", "C", "", [], []⟩ =
      "head ".data ++ (summaryText ⟨"T", "C", "", [], []⟩ ++
        (" mid ".data ++ (skillsText ⟨"T", "C", "", [], []⟩ ++ " tail".data))) :=
  fill_designated_tokens ⟨"T", "C", "", [], []⟩ "head ".data " mid ".data " tail".data
    (by decide) (by decide) (by decide) (by decide)

/-- Claim C10 (confirmed): if reading the template fails,
`modify_latex_template` returns `False` and leaves the filesystem — in
particular the output path — untouched; the embedding is a total function,
so no error is raised to the caller. -/
theorem modify_latex_template_read_failure_atomic
    (fs : List (String × List Char)) (templatePath outputPath : String)
    (l : ExtractedListing) (h : fsRead fs templatePath = none) :
    modify_latex_template fs templatePath outputPath l = (false, fs) := by
  simp [modify_latex_template, h]

/-- Witness for C10 on the empty filesystem. -/
theorem modify_latex_template_read_failure_atomic_witness :
    modify_latex_template [] "base_resume.tex" "out.tex" ⟨"T", "C", "", [], []⟩
      = (false, []) :=
  modify_latex_template_read_failure_atomic [] "base_resume.tex" "out.tex"
    ⟨"T", "C", "", [], []⟩ rfl

/-! ### Theorems for claims C4, C6 and C7 -/

/-- Claim C4 (confirmed): compilation reports success exactly when the .tex
file exists, the pdflatex invocation returns without exception with exit
status zero, AND the PDF artifact exists on disk afterwards.  In
particular a zero exit status with the artifact absent is a failure, and
any exception while invoking the external process yields a failed result
instead of propagating. -/
theorem compile_success_iff :
    (∀ (texExists : Bool) (run : Except String ProcResult) (pdfExists : Bool),
      compile_latex_to_pdf texExists run pdfExists = true ↔
        texExists = true ∧ (∃ r, run = .ok r ∧ r.returncode = 0) ∧ pdfExists = true) ∧
    (∀ (texExists : Bool) (out err : String),
      compile_latex_to_pdf texExists (.ok ⟨0, out, err⟩) false = false) ∧
    (∀ (texExists : Bool) (msg : String) (pdfExists : Bool),
      compile_latex_to_pdf texExists (.error msg) pdfExists = false) := by
  refine ⟨?_, ?_, ?_⟩
  · intro te run pe
    constructor
    · intro h
      cases te with
      | false => simp [compile_latex_to_pdf] at h
      | true =>
        cases run with
        | error m => simp [compile_latex_to_pdf] at h
        | ok r =>
          by_cases hr : r.returncode = 0
          · cases pe with
            | false => simp [compile_latex_to_pdf, hr] at h
            | true => exact ⟨rfl, ⟨r, rfl, hr⟩, rfl⟩
          · simp [compile_latex_to_pdf, hr] at h
    · rintro ⟨hte, ⟨r, hrun, hr⟩, hpe⟩
      subst hte
      subst hrun
      subst hpe
      simp [compile_latex_to_pdf, hr]
  · intro te out err
    cases te <;> simp [compile_latex_to_pdf]
  · intro te msg pe
    cases te <;> simp [compile_latex_to_pdf]

/-- Claim C6 (code bug): the spec says keyword extraction returns the top-N
most frequent non-stopword alphabetic tokens and never errors, but
`stop_words` is an unbound name in src/testing.py, so every text containing
an alphabetic token raises `NameError` (the module's own `__main__`
self-test calls this path and would crash).  Evaluated at the failing input
"python developer", which nltk tokenizes to ["python", "developer"]. -/
theorem extract_keywords_raises_name_error :
    extract_keywords "python developer" ["python", "developer"] 15 =
      .error "NameError: name stop_words is not defined" := rfl

/-- Claim C7 counterexample: "c++" occurs as a whole word in "know c++."
in the natural sense (no word character adjacent on either side), yet
`extract_skills` does not include "C++": the trailing `\b` of the regex
pattern, placed after the escaped '+', requires a FOLLOWING word character,
which '.' is not. -/
theorem extract_skills_cpp_counterexample :
    specWholeWordOcc "c++" "know c++." = true ∧
    pyCapitalize "c++" = "C++" ∧
    ("C++" ∈ extract_skills "know c++." PREDEFINED_SKILLS → False) := by
  refine ⟨by decide, rfl, by decide⟩

/-- Claim C7 (amended): a vocabulary entry (capitalized) is included in the
extracted skills iff the lower-cased text matches the word-boundary regex
pattern of the lower-cased entry — a `\b` transition at both ends of a
literal occurrence; for entries whose edges are non-word characters (such
as "c++") this differs from naive whole-word occurrence by requiring an
adjacent word character.  The result list is duplicate-free. -/
theorem extract_skills_regex_membership (text skill : String)
    (h : skill ∈ PREDEFINED_SKILLS) :
    (pyCapitalize skill ∈ extract_skills text PREDEFINED_SKILLS ↔
      reSearchWord (pyLower skill) (pyLower text) = true) ∧
    (extract_skills text PREDEFINED_SKILLS).Nodup := by
  constructor
  · unfold extract_skills
    rw [List.mem_dedup, List.mem_map]
    constructor
    · rintro ⟨sk', hmem, heq⟩
      rw [List.mem_filter] at hmem
      obtain ⟨hsk', hsearch⟩ := hmem
      have hnodup : (PREDEFINED_SKILLS.map pyCapitalize).Nodup := by decide
      have hinj : sk' = skill := List.inj_on_of_nodup_map hnodup hsk' h heq
      exact hinj ▸ hsearch
    · intro hsearch
      exact ⟨skill, List.mem_filter.mpr ⟨h, hsearch⟩, rfl⟩
  · exact List.nodup_dedup _

/-- Witness for C7: the entry "python" against "I use Python daily". -/
theorem extract_skills_regex_membership_witness :
    ("python" ∈ PREDEFINED_SKILLS) ∧
    (pyCapitalize "python" ∈ extract_skills "I use Python daily" PREDEFINED_SKILLS ↔
      reSearchWord (pyLower "python") (pyLower "I use Python daily") = true) ∧
    (extract_skills "I use Python daily" PREDEFINED_SKILLS).Nodup :=
  ⟨by decide,
    (extract_skills_regex_membership "I use Python daily" "python" (by decide)).1,
    (extract_skills_regex_membership "I use Python daily" "python" (by decide)).2⟩

/-! ### Theorems for claims C8 and C9 -/

theorem simVocab_comm (tok : String → List String) (a b : String) :
    simVocab tok a b = simVocab tok b a := by
  ext t
  simp [simVocab, List.mem_toFinset, List.mem_append, or_comm]

theorem docFreq_comm (tok : String → List String) (a b t : String) :
    docFreq tok a b t = docFreq tok b a t :=
  add_comm _ _

theorem tfidfCoord_comm (tok : String → List String) (w : Nat → ℝ) (a b d t : String) :
    tfidfCoord tok w a b d t = tfidfCoord tok w b a d t := by
  unfold tfidfCoord
  rw [docFreq_comm]

theorem tfidfDot_comm (tok : String → List String) (w : Nat → ℝ) (a b d1 d2 : String) :
    tfidfDot tok w a b d1 d2 = tfidfDot tok w b a d2 d1 := by
  unfold tfidfDot
  rw [simVocab_comm tok a b]
  apply Finset.sum_congr rfl
  intro t _
  rw [tfidfCoord_comm tok w a b d1 t, tfidfCoord_comm tok w a b d2 t, mul_comm]

/-- Claim C8 (confirmed): similarity scoring is symmetric — for all
non-empty texts `a` and `b`, and for every tokenizer and idf weighting,
the score of `(a, b)` equals the score of `(b, a)`. -/
theorem calculate_similarity_symm (tok : String → List String) (w : Nat → ℝ)
    (a b : String) (ha : a ≠ "") (hb : b ≠ "") :
    calculate_similarity tok w a b = calculate_similarity tok w b a := by
  unfold calculate_similarity
  rw [if_neg (show ¬(a = "" ∨ b = "") by tauto),
    if_neg (show ¬(b = "" ∨ a = "") by tauto)]
  rw [simVocab_comm tok b a]
  by_cases hv : simVocab tok a b = ∅
  · rw [if_pos hv, if_pos hv]
  · rw [if_neg hv, if_neg hv]
    rw [tfidfDot_comm tok w b a b a, tfidfDot_comm tok w b a b b,
      tfidfDot_comm tok w b a a a]
    rw [mul_comm (Real.sqrt (tfidfDot tok w a b b b)) (Real.sqrt (tfidfDot tok w a b a a))]

/-- Witness for C8 at concrete non-empty texts. -/
theorem calculate_similarity_symm_witness :
    ("x" ≠ "") ∧ ("y" ≠ "") ∧
    calculate_similarity (fun s => [s]) (fun _ => 1) "x" "y" =
      calculate_similarity (fun s => [s]) (fun _ => 1) "y" "x" :=
  ⟨by decide, by decide,
    calculate_similarity_symm (fun s => [s]) (fun _ => 1) "x" "y"
      (by decide) (by decide)⟩

/-- Claim C9 (confirmed): similarity scoring returns exactly 0 whenever
either input text is empty or the corpus vocabulary is empty; these
branches are taken before any vector arithmetic, and the embedding is a
total function — the sklearn `ValueError` is absorbed, not raised. -/
theorem calculate_similarity_degenerate_zero (tok : String → List String) (w : Nat → ℝ)
    (a b : String) (h : a = "" ∨ b = "" ∨ simVocab tok a b = ∅) :
    calculate_similarity tok w a b = 0 := by
  unfold calculate_similarity
  rcases h with h | h | h
  · rw [if_pos (Or.inl h)]
  · rw [if_pos (Or.inr h)]
  · by_cases he : a = "" ∨ b = ""
    · rw [if_pos he]
    · rw [if_neg he, if_pos h]

/-- Witness for C9: the empty first text scores 0 against anything. -/
theorem calculate_similarity_degenerate_zero_witness :
    calculate_similarity (fun s => [s]) (fun _ => 1) "" "anything" = 0 :=
  calculate_similarity_degenerate_zero (fun s => [s]) (fun _ => 1) "" "anything"
    (Or.inl rfl)

end JobSee


